import Mathlib

/-!
Verification development for the `srv` package: a shallow embedding of the
server lifecycle (`Server.Run` / `Server.Shutdown` / `Server.IsRunning`),
the construction options (`New`, `OptionContextPath`, `OptionAppEnv`), the
route registration facade (`Server.Handle`) and the health/info handlers
(`HealthHandler`, `InfoHandler`) from `handler.go` / `server.go` /
`option.go`, together with theorems about the properties the package is
documented to have.
-/

namespace Srv

/-- JsonValue stands in for Go's `interface{}` values carried by info
metrics and the `Info` field of a health result; the aggregation code never
inspects these values, it only moves them around, so a small closed value
domain is enough. -/
inductive JsonValue where
  | null : JsonValue
  | str : String → JsonValue
  | num : Int → JsonValue
  | boolean : Bool → JsonValue
deriving DecidableEq, Repr

/-- Association list standing in for Go's `map[string]α`; `mapInsert`
models `m[k] = v` (overwrite the entry for `k`, otherwise append). -/
def mapInsert (m : List (String × α)) (k : String) (v : α) : List (String × α) :=
  match m with
  | [] => [(k, v)]
  | (k', v') :: rest => if k' = k then (k, v) :: rest else (k', v') :: mapInsert rest k v

/-- Lookup in the association-list model of a Go map. -/
def mapLookup (m : List (String × α)) (k : String) : Option α :=
  match m with
  | [] => none
  | (k', v') :: rest => if k' = k then some v' else mapLookup rest k

/-- HealthMetricResult from handler.go: the struct returned by a health
check callback. -/
structure HealthMetricResult where
  OK : Bool
  Status : String
  Info : List (String × JsonValue)
deriving DecidableEq, Repr

/-- HealthMetric from handler.go: a named health check. -/
structure HealthMetric where
  Name : String
  GetValue : Unit → HealthMetricResult

/-- The status normalisation performed inside each health goroutine
(handler.go lines 59-63): `ok` with empty status becomes "ok", not-`ok`
with empty status becomes "not ok", a non-empty status is kept. -/
def normalizeHealthResult (data : HealthMetricResult) : HealthMetricResult :=
  if data.OK && data.Status == "" then { data with Status := "ok" }
  else if !data.OK && data.Status == "" then { data with Status := "not ok" }
  else data

/-- The mutable state shared by the health goroutines: the overall-ok flag
and the per-check result map (`res.Metrics`). -/
structure HealthAggState where
  isOk : Bool
  Metrics : List (String × HealthMetricResult)

/-- The body of one health goroutine (handler.go lines 56-70): run the
check, normalise the status, clear the overall flag on failure and record
the result under the check's name. -/
def runCheckTask (st : HealthAggState) (metric : HealthMetric) : HealthAggState :=
  let data := normalizeHealthResult (metric.GetValue ())
  { isOk := if !data.OK then false else st.isOk,
    Metrics := mapInsert st.Metrics metric.Name data }

/-- Observable outcome of one invocation of the handler returned by
`HealthHandler`: overall status string, the metrics map (`none` models the
Go `nil` map left in place when the metrics pointer is nil), the HTTP
status code written by `jres`, and the number of goroutines spawned. -/
structure HealthHandlerOutput where
  status : String
  Metrics : Option (List (String × HealthMetricResult))
  code : Nat
  spawned : Nat
deriving DecidableEq, Repr

/-- HealthHandler from handler.go, lines 44-84, as a function from the
checks behind the `*[]HealthMetric` pointer (`none` models a nil pointer)
to the response. The per-check goroutines all complete before `wg.Wait`
returns; their joint effect on the shared state is folded here in one
execution order, and order independence of the overall status is proved
separately over permutations of the check list. -/
def HealthHandlerRun (metrics : Option (List HealthMetric)) : HealthHandlerOutput :=
  match metrics with
  | none =>
      -- metrics == nil: the map stays nil, no goroutines, isOk stays true
      { status := "ok", Metrics := none, code := 200, spawned := 0 }
  | some l =>
      let st := l.foldl runCheckTask { isOk := true, Metrics := [] }
      if !st.isOk then
        { status := "not ok", Metrics := some st.Metrics, code := 500, spawned := l.length }
      else
        { status := "ok", Metrics := some st.Metrics, code := 200, spawned := l.length }

/-- InfoMetric from handler.go: a named info check returning an arbitrary
value. -/
structure InfoMetric where
  Name : String
  GetValue : Unit → JsonValue

/-- Observable outcome of one invocation of the handler returned by
`InfoHandler`, restricted to the parts computed from the registered
checks; the process-runtime statistics (goroutine count, uptime, CPU
count, memory, GC) are host introspection outside the embedding. -/
structure InfoHandlerOutput where
  Metrics : List (String × JsonValue)
  code : Nat
  spawned : Nat
deriving DecidableEq, Repr

/-- InfoHandler from handler.go, lines 117-146: the returned handler
ranges over `*metrics` without a nil guard, so invoking it with a nil
pointer panics — modelled as `none`. Otherwise the checks run
sequentially, in registration order, each writing its value into the
metrics map under its name; no goroutine is spawned. -/
def InfoHandlerRun (metrics : Option (List InfoMetric)) : Option InfoHandlerOutput :=
  match metrics with
  | none => none
  | some l =>
      some { Metrics := l.foldl (fun m x => mapInsert m x.Name (x.GetValue ())) [],
             code := 200,
             spawned := 0 }

/-- RouteInfo from handler.go: the record kept per registration for the
routes-listing endpoint. -/
structure RouteInfo where
  Method : String
  Path : String
deriving DecidableEq, Repr

/-- The `*http.Server` held by a running `Server`; only its address is
observable to the lifecycle code. -/
structure HttpServer where
  Addr : String
deriving DecidableEq, Repr

/-- The Go error values the lifecycle can return: `ErrServerStopped`,
`ErrServerAlreadyRunning`, the wrapped ListenAndServe failure built in
`startServer`, and whatever error `http.Server.Shutdown` surfaced (for
example a drain timeout). -/
inductive GoError where
  | serverStopped : GoError
  | alreadyRunning : GoError
  | startFailed : String → GoError
  | httpShutdownError : String → GoError
deriving DecidableEq, Repr

/-- Server from server.go: the facade state. The embedded httprouter is
modelled as the list of `(method, path)` pairs registered on it, and the
panic handler as a flag saying whether one is installed (`PanicHandler()`
by default, `nil` in dev/test). -/
structure Server where
  contextPath : String
  routes : List RouteInfo
  httpServer : Option HttpServer
  readinessMetrics : List HealthMetric
  livenessMetrics : List HealthMetric
  infoMetrics : List InfoMetric
  router : List (String × String)
  panicHandlerSet : Bool

/-- Server.Handle from server.go lines 170-173: record a RouteInfo with
the context path prepended and register the same method and prefixed path
on the underlying router. -/
def Handle (s : Server) (method path : String) : Server :=
  { s with
      routes := s.routes ++ [{ Method := method, Path := s.contextPath ++ path }],
      router := s.router ++ [(method, s.contextPath ++ path)] }

/-- Server.GET from server.go: shortcut for `Handle "GET"`. -/
def GET (s : Server) (path : String) : Server :=
  Handle s "GET" path

/-- strings.TrimSuffix: drop one trailing occurrence of `suf` when
present. -/
def trimSuffix (s suf : String) : String :=
  if suf.data.isSuffixOf s.data then ⟨s.data.take (s.data.length - suf.data.length)⟩ else s

/-- The two option names of option.go. -/
inductive OptionName where
  | contextPath : OptionName
  | appEnv : OptionName
deriving DecidableEq, Repr

/-- Option from option.go; both constructors store a string value. -/
structure SrvOption where
  name : OptionName
  value : String
deriving DecidableEq, Repr

/-- OptionContextPath from option.go. -/
def OptionContextPath (path : String) : SrvOption :=
  { name := .contextPath, value := path }

/-- OptionAppEnv from option.go. -/
def OptionAppEnv (envName : String) : SrvOption :=
  { name := .appEnv, value := envName }

/-- The body of New's option loop (server.go lines 62-72): a contextPath
option stores the path with a trailing slash trimmed; an appEnv option
with value "dev" or "test" registers the routes endpoint at that moment
and removes the panic handler. -/
def applyOption (srv : Server) (o : SrvOption) : Server :=
  match o.name with
  | .contextPath => { srv with contextPath := trimSuffix o.value "/" }
  | .appEnv =>
      if o.value = "dev" ∨ o.value = "test" then
        let srv := GET srv "/_system/routes"
        { srv with panicHandlerSet := false }
      else srv

/-- New from server.go lines 54-79: fresh state with the panic handler
installed, the options applied in order, then the readiness, liveness and
info built-ins registered. -/
def New (opts : List SrvOption) : Server :=
  let srv : Server :=
    { contextPath := "", routes := [], httpServer := none,
      readinessMetrics := [], livenessMetrics := [], infoMetrics := [],
      router := [], panicHandlerSet := true }
  let srv := opts.foldl applyOption srv
  let srv := GET srv "/_system/readiness"
  let srv := GET srv "/_system/liveness"
  GET srv "/_system/info"

/-- Server.IsRunning from server.go lines 155-157. -/
def IsRunning (s : Server) : Bool :=
  s.httpServer.isSome

/-- Server.Shutdown from server.go lines 134-153: error out with
ErrServerStopped when no http server is held, otherwise drain (the drain
outcome `drainErr` is what `http.Server.Shutdown` returned — `none` on a
clean drain, an error string on, say, a timeout), clear the http server
unconditionally and surface the drain outcome. -/
def Shutdown (s : Server) (drainErr : Option String) : Server × Option GoError :=
  match s.httpServer with
  | none => (s, some .serverStopped)
  | some _ =>
      ({ s with httpServer := none }, drainErr.map GoError.httpShutdownError)

/-- The event Run's select statement unblocks on: either `startServer`
delivered a ListenAndServe failure, or a stop signal (SIGHUP, SIGINT,
SIGQUIT or SIGTERM) arrived. -/
inductive RunEvent where
  | listenFailed : String → RunEvent
  | signal : RunEvent
deriving DecidableEq, Repr

/-- Server.Run from server.go lines 105-132: error out with
ErrServerAlreadyRunning when an http server is already held; otherwise
install the http server, start serving, and block until `ev` occurs. On a
listen failure `startServer` clears the http server and Run returns the
wrapped error; on a signal Run returns `Shutdown`'s result. -/
def Run (s : Server) (addr : String) (ev : RunEvent) (drainErr : Option String) :
    Server × Option GoError :=
  match s.httpServer with
  | some _ => (s, some .alreadyRunning)
  | none =>
      let s := { s with httpServer := some { Addr := addr } }
      match ev with
      | .listenFailed msg =>
          ({ s with httpServer := none },
           some (.startFailed ("common/server: failed to start server: " ++ msg)))
      | .signal => Shutdown s drainErr

/-- The router dispatch consumed from httprouter: a registered handler
answers with its own status; an unregistered path falls back to
`NotFoundHandler` (404 from `jres.NotFound`), and a path registered only
under other methods falls back to `MethodNotAllowedHandler` (405), since
New sets `HandleMethodNotAllowed`. -/
def servedStatus (s : Server) (method path : String) (handlerStatus : Nat) : Nat :=
  if (method, path) ∈ s.router then handlerStatus
  else if s.router.any (fun r => r.2 = path) then 405
  else 404

/-- A concrete passing check, for witnesses. -/
def okCheck : HealthMetric :=
  { Name := "base", GetValue := fun _ => { OK := true, Status := "", Info := [] } }

/-- A concrete failing check with a custom status, for witnesses (the
"db" scenario of the test suite). -/
def dbCheck : HealthMetric :=
  { Name := "db", GetValue := fun _ => { OK := false, Status := "degraded", Info := [] } }

/-- A concrete failing check with an empty status, for witnesses. -/
def badCheck : HealthMetric :=
  { Name := "bad", GetValue := fun _ => { OK := false, Status := "", Info := [] } }

/-- A server that already holds a listener, for witnesses. -/
def sampleRunning : Server :=
  { New [] with httpServer := some { Addr := ":9876" } }

/-! Helper lemmas about the status normalisation and about the joint
effect of the health goroutines on the shared aggregation state. -/

theorem normalizeHealthResult_OK (r : HealthMetricResult) :
    (normalizeHealthResult r).OK = r.OK := by
  unfold normalizeHealthResult
  split
  · rfl
  · split <;> rfl

theorem normalizeHealthResult_Info (r : HealthMetricResult) :
    (normalizeHealthResult r).Info = r.Info := by
  unfold normalizeHealthResult
  split
  · rfl
  · split <;> rfl

theorem foldl_runCheckTask_isOk (l : List HealthMetric) (st : HealthAggState) :
    (l.foldl runCheckTask st).isOk = (st.isOk && l.all fun m => (m.GetValue ()).OK) := by
  induction l generalizing st with
  | nil => simp
  | cons x xs ih =>
      rw [List.foldl_cons, ih, List.all_cons]
      have hOK : (runCheckTask st x).isOk
          = (if !(x.GetValue ()).OK then false else st.isOk) := by
        simp [runCheckTask, normalizeHealthResult_OK]
      rw [hOK]
      cases h : (x.GetValue ()).OK <;> simp [h, Bool.and_left_comm, Bool.and_comm]

theorem foldl_runCheckTask_Metrics (l : List HealthMetric) (st : HealthAggState) :
    (l.foldl runCheckTask st).Metrics
      = l.foldl
          (fun m x => mapInsert m x.Name (normalizeHealthResult (x.GetValue ()))) st.Metrics := by
  induction l generalizing st with
  | nil => rfl
  | cons x xs ih => rw [List.foldl_cons, ih, List.foldl_cons]; rfl

theorem mapLookup_mapInsert_self (m : List (String × α)) (k : String) (v : α) :
    mapLookup (mapInsert m k v) k = some v := by
  induction m with
  | nil => simp [mapInsert, mapLookup]
  | cons p rest ih =>
      obtain ⟨k', v'⟩ := p
      by_cases h : k' = k <;> simp [mapInsert, mapLookup, h, ih]

theorem mapLookup_mapInsert_ne (m : List (String × α)) (k : String) (v : α) (n : String)
    (h : n ≠ k) : mapLookup (mapInsert m k v) n = mapLookup m n := by
  have hkn : ¬k = n := fun h' => h h'.symm
  induction m with
  | nil => simp [mapInsert, mapLookup, hkn]
  | cons p rest ih =>
      obtain ⟨k', v'⟩ := p
      by_cases h' : k' = k
      · subst h'
        simp [mapInsert, mapLookup, hkn]
      · simp [mapInsert, mapLookup, h', ih]

theorem mapLookup_foldl_insert {β : Type _} (key : β → String) (val : β → α)
    (l : List β) (st : List (String × α)) (n : String) :
    mapLookup (l.foldl (fun m x => mapInsert m (key x) (val x)) st) n
      = (match (l.filter fun x => key x = n).getLast? with
         | some x => some (val x)
         | none => mapLookup st n) := by
  induction l generalizing st with
  | nil => simp
  | cons x xs ih =>
      rw [List.foldl_cons, ih, List.filter_cons]
      cases hfilter : xs.filter (fun b => decide (key b = n)) with
      | nil =>
          by_cases hx : key x = n
          · rw [if_pos (decide_eq_true hx)]
            simp only [List.getLast?_nil, List.getLast?_singleton]
            subst hx
            exact mapLookup_mapInsert_self st (key x) (val x)
          · rw [if_neg (by simp [hx])]
            simp only [List.getLast?_nil]
            exact mapLookup_mapInsert_ne st (key x) (val x) n (fun h => hx h.symm)
      | cons y ys =>
          have hlast : ∀ m0 m1 : List (String × α),
              (match (y :: ys).getLast? with
               | some b => some (val b)
               | none => mapLookup m0 n)
              = (match (y :: ys).getLast? with
                 | some b => some (val b)
                 | none => mapLookup m1 n) := by
            intro m0 m1
            cases hg : (y :: ys).getLast? with
            | none => simp [List.getLast?_eq_none_iff] at hg
            | some z => rfl
          by_cases hx : key x = n
          · rw [if_pos (decide_eq_true hx), List.getLast?_cons_cons]
            exact hlast (mapInsert st (key x) (val x)) st
          · rw [if_neg (by simp [hx])]
            exact hlast (mapInsert st (key x) (val x)) st

theorem normalizeHealthResult_status_of_ok (r : HealthMetricResult)
    (h1 : r.OK = true) (h2 : r.Status = "") :
    (normalizeHealthResult r).Status = "ok" := by
  simp [normalizeHealthResult, h1, h2]

theorem normalizeHealthResult_status_of_bad (r : HealthMetricResult)
    (h1 : r.OK = false) (h2 : r.Status = "") :
    (normalizeHealthResult r).Status = "not ok" := by
  simp [normalizeHealthResult, h1, h2]

theorem normalizeHealthResult_status_custom (r : HealthMetricResult)
    (h : r.Status ≠ "") :
    (normalizeHealthResult r).Status = r.Status := by
  have hb : (r.Status == "") = false := by simp [h]
  simp [normalizeHealthResult, hb]

theorem all_eq_of_perm {l l' : List HealthMetric} (h : l.Perm l')
    (f : HealthMetric → Bool) : l.all f = l'.all f := by
  induction h with
  | nil => rfl
  | cons a _ ih => simp [List.all_cons, ih]
  | swap a b t => simp [List.all_cons, Bool.and_left_comm]
  | trans _ _ ih1 ih2 => exact ih1.trans ih2

theorem HealthHandlerRun_aggregate (l : List HealthMetric) :
    (HealthHandlerRun (some l)).status
        = (if l.all (fun m => (m.GetValue ()).OK) then "ok" else "not ok")
      ∧ (HealthHandlerRun (some l)).code
        = (if l.all (fun m => (m.GetValue ()).OK) then 200 else 500) := by
  have hisok : (l.foldl runCheckTask { isOk := true, Metrics := [] }).isOk
      = l.all fun m => (m.GetValue ()).OK := by
    rw [foldl_runCheckTask_isOk]
    simp
  constructor <;>
    · simp only [HealthHandlerRun, hisok]
      cases l.all fun m => (m.GetValue ()).OK <;> simp

theorem HealthHandlerRun_Metrics_eq (l : List HealthMetric) :
    (HealthHandlerRun (some l)).Metrics
      = some (l.foldl
          (fun mp x => mapInsert mp x.Name (normalizeHealthResult (x.GetValue ()))) []) := by
  have hm := foldl_runCheckTask_Metrics l { isOk := true, Metrics := [] }
  simp only [HealthHandlerRun]
  split <;> simpa using hm

/-- C1: for every non-empty collection of health checks and every
execution order of the per-check goroutines (modelled by running the
handler on any permutation of the registered list), if at least one check
reports ok=false the overall status is "not ok" with HTTP status 500, and
if every check reports ok=true the overall status is "ok" with HTTP
status 200. -/
theorem health_overall_status (l l' : List HealthMetric) (hp : l.Perm l') (_hne : l ≠ []) :
    ((l.any fun m => !(m.GetValue ()).OK) = true →
        (HealthHandlerRun (some l')).status = "not ok"
          ∧ (HealthHandlerRun (some l')).code = 500)
  ∧ ((l.all fun m => (m.GetValue ()).OK) = true →
        (HealthHandlerRun (some l')).status = "ok"
          ∧ (HealthHandlerRun (some l')).code = 200) := by
  have hall : (l'.all fun m => (m.GetValue ()).OK) = l.all fun m => (m.GetValue ()).OK :=
    (all_eq_of_perm hp _).symm
  have hbridge := HealthHandlerRun_aggregate l'
  constructor
  · intro hany
    have hfalse : (l.all fun m => (m.GetValue ()).OK) = false := by
      rw [List.any_eq_true] at hany
      obtain ⟨m, hm, hmv⟩ := hany
      cases hcase : l.all fun m => (m.GetValue ()).OK
      · rfl
      · rw [List.all_eq_true] at hcase
        have hmt := hcase m hm
        simp [hmt] at hmv
    rw [hbridge.1, hbridge.2, hall, hfalse]
    simp
  · intro hallok
    rw [hbridge.1, hbridge.2, hall, hallok]
    simp

/-- Witness for C1 at a concrete input: two checks, one passing and one
failing, executed in registration order. -/
theorem health_overall_status_witness :
    [okCheck, badCheck] ≠ ([] : List HealthMetric)
      ∧ (HealthHandlerRun (some [okCheck, badCheck])).status = "not ok"
      ∧ (HealthHandlerRun (some [okCheck, badCheck])).code = 500 :=
  ⟨List.cons_ne_nil _ _,
   (health_overall_status [okCheck, badCheck] [okCheck, badCheck]
      (List.Perm.refl _) (List.cons_ne_nil _ _)).1 rfl⟩

/-- C2: the per-check entry recorded in the response's metrics mapping
carries the check's result with the status normalised — "ok" for a true
result with empty status, "not ok" for a false result with empty status,
and the check's own status string unchanged when non-empty (the OK flag
and the Info map are passed through). Stated for a check that is the only
one registered under its name, so that its entry is the one recorded. -/
theorem health_per_check_status (l : List HealthMetric) (m : HealthMetric)
    (huniq : (l.filter fun x => x.Name = m.Name) = [m]) :
    ∃ mp r, (HealthHandlerRun (some l)).Metrics = some mp
      ∧ mapLookup mp m.Name = some r
      ∧ r.OK = (m.GetValue ()).OK
      ∧ r.Info = (m.GetValue ()).Info
      ∧ ((m.GetValue ()).OK = true → (m.GetValue ()).Status = "" → r.Status = "ok")
      ∧ ((m.GetValue ()).OK = false → (m.GetValue ()).Status = "" → r.Status = "not ok")
      ∧ ((m.GetValue ()).Status ≠ "" → r.Status = (m.GetValue ()).Status) := by
  refine ⟨_, normalizeHealthResult (m.GetValue ()), HealthHandlerRun_Metrics_eq l, ?_, ?_, ?_,
    ?_, ?_, ?_⟩
  · rw [mapLookup_foldl_insert (fun x => x.Name) (fun x => normalizeHealthResult (x.GetValue ()))
        l [] m.Name, huniq]
    rfl
  · exact normalizeHealthResult_OK _
  · exact normalizeHealthResult_Info _
  · exact normalizeHealthResult_status_of_ok _
  · exact normalizeHealthResult_status_of_bad _
  · exact normalizeHealthResult_status_custom _

/-- Witness for C2 at a concrete input: the "db" check returning
ok=false with the custom status "degraded". -/
theorem health_per_check_status_witness :
    (([dbCheck].filter fun x => x.Name = dbCheck.Name) = [dbCheck])
      ∧ ∃ mp r, (HealthHandlerRun (some [dbCheck])).Metrics = some mp
          ∧ mapLookup mp dbCheck.Name = some r
          ∧ r.OK = (dbCheck.GetValue ()).OK
          ∧ r.Info = (dbCheck.GetValue ()).Info
          ∧ ((dbCheck.GetValue ()).OK = true → (dbCheck.GetValue ()).Status = ""
              → r.Status = "ok")
          ∧ ((dbCheck.GetValue ()).OK = false → (dbCheck.GetValue ()).Status = ""
              → r.Status = "not ok")
          ∧ ((dbCheck.GetValue ()).Status ≠ "" → r.Status = (dbCheck.GetValue ()).Status) :=
  ⟨rfl, health_per_check_status [dbCheck] dbCheck rfl⟩

/-- C3: with zero registered checks the health endpoint answers overall
status "ok", an empty metrics mapping and HTTP status 200, spawning no
goroutine. -/
theorem health_empty_checks :
    HealthHandlerRun (some [])
      = { status := "ok", Metrics := some [], code := 200, spawned := 0 } := rfl

/-- C4: calling Run while the server already holds a listener returns
ErrServerAlreadyRunning and returns the server state completely
unchanged, whatever address, unblocking event or drain outcome the call
would otherwise have seen. -/
theorem run_already_running (s : Server) (hs : HttpServer) (h : s.httpServer = some hs)
    (addr : String) (ev : RunEvent) (drainErr : Option String) :
    Run s addr ev drainErr = (s, some GoError.alreadyRunning) := by
  simp [Run, h]

/-- Witness for C4 at a concrete input: a server already listening on
":9876". -/
theorem run_already_running_witness :
    sampleRunning.httpServer = some { Addr := ":9876" }
      ∧ Run sampleRunning ":9876" RunEvent.signal none
          = (sampleRunning, some GoError.alreadyRunning) :=
  ⟨rfl, run_already_running sampleRunning { Addr := ":9876" } rfl ":9876" RunEvent.signal none⟩

/-- C5: Shutdown on a stopped server returns ErrServerStopped with the
state unchanged, and a second consecutive Shutdown after a completed
shutdown likewise returns ErrServerStopped without re-draining. -/
theorem shutdown_not_running (s : Server) (d d' : Option String) :
    (s.httpServer = none → Shutdown s d = (s, some GoError.serverStopped))
  ∧ (∀ hs, s.httpServer = some hs →
        Shutdown (Shutdown s d).1 d'
          = ((Shutdown s d).1, some GoError.serverStopped)) := by
  constructor
  · intro h
    simp [Shutdown, h]
  · intro hs h
    have h1 : (Shutdown s d).1 = { s with httpServer := none } := by simp [Shutdown, h]
    rw [h1]
    simp [Shutdown]

/-- Witness for C5 at concrete inputs: a freshly constructed (stopped)
server, and a running server shut down twice in a row. -/
theorem shutdown_not_running_witness :
    (New []).httpServer = none
      ∧ Shutdown (New []) none = (New [], some GoError.serverStopped)
      ∧ sampleRunning.httpServer = some { Addr := ":9876" }
      ∧ Shutdown (Shutdown sampleRunning none).1 none
          = ((Shutdown sampleRunning none).1, some GoError.serverStopped) :=
  ⟨rfl, (shutdown_not_running (New []) none none).1 rfl, rfl,
   (shutdown_not_running sampleRunning none none).2 { Addr := ":9876" } rfl⟩

/-- C6: once the drain attempt of Shutdown completes the server is
Stopped unconditionally — the listener is cleared and any drain error is
only surfaced as the return value — so IsRunning afterwards is false and
a subsequent Run is never rejected with ErrServerAlreadyRunning. -/
theorem shutdown_unconditional_stop (s : Server) (hs : HttpServer)
    (h : s.httpServer = some hs) (d : Option String) :
    IsRunning (Shutdown s d).1 = false
      ∧ (Shutdown s d).2 = d.map GoError.httpShutdownError
      ∧ ∀ addr ev d',
          (Run (Shutdown s d).1 addr ev d').2 ≠ some GoError.alreadyRunning := by
  have h1 : (Shutdown s d).1 = { s with httpServer := none } := by simp [Shutdown, h]
  refine ⟨by rw [h1]; rfl, by simp [Shutdown, h], ?_⟩
  intro addr ev d'
  rw [h1]
  cases ev with
  | listenFailed msg => simp [Run]
  | signal =>
      simp only [Run, Shutdown]
      cases d' <;> simp

/-- Witness for C6 at a concrete input: a running server whose drain
times out ("context deadline exceeded"). -/
theorem shutdown_unconditional_stop_witness :
    sampleRunning.httpServer = some { Addr := ":9876" }
      ∧ (IsRunning (Shutdown sampleRunning (some "context deadline exceeded")).1 = false
        ∧ (Shutdown sampleRunning (some "context deadline exceeded")).2
            = (some "context deadline exceeded").map GoError.httpShutdownError
        ∧ ∀ addr ev d',
            (Run (Shutdown sampleRunning (some "context deadline exceeded")).1 addr ev d').2
              ≠ some GoError.alreadyRunning) :=
  ⟨rfl, shutdown_unconditional_stop sampleRunning { Addr := ":9876" } rfl
      (some "context deadline exceeded")⟩

/-- C7 counterexample: with the option list
`[OptionAppEnv "dev", OptionContextPath "/api/"]` the final context path
is "/api", yet the dev-only routes endpoint was registered inside the
option loop before the context path was set, so it is exposed at
"/_system/routes" and not at "/api/_system/routes" — the claim that
every construction-option list prefixes every built-in fails. -/
theorem context_path_counterexample :
    (New [OptionAppEnv "dev", OptionContextPath "/api/"]).contextPath = "/api"
      ∧ ("GET", "/_system/routes")
          ∈ (New [OptionAppEnv "dev", OptionContextPath "/api/"]).router
      ∧ ("GET", "/api/_system/routes")
          ∉ (New [OptionAppEnv "dev", OptionContextPath "/api/"]).router := by
  decide

/-- C7 (amended): every route registered through the facade after
construction, and the built-in readiness, liveness and info endpoints,
are exposed at the configured contextPath (trailing slash trimmed)
prefixed to the route's path with no trailing-slash duplication; the
dev/test routes endpoint receives the contextPath configured by options
processed before the appEnv option — in particular it is prefixed
whenever the contextPath option precedes the appEnv option. -/
theorem context_path_applied (opts : List SrvOption) (m p cp : String) :
    (Handle (New opts) m p).router
        = (New opts).router ++ [(m, (New opts).contextPath ++ p)]
      ∧ ("GET", (New opts).contextPath ++ "/_system/readiness") ∈ (New opts).router
      ∧ ("GET", (New opts).contextPath ++ "/_system/liveness") ∈ (New opts).router
      ∧ ("GET", (New opts).contextPath ++ "/_system/info") ∈ (New opts).router
      ∧ ("GET", trimSuffix cp "/" ++ "/_system/routes")
          ∈ (New [OptionContextPath cp, OptionAppEnv "dev"]).router
      ∧ trimSuffix "/api/" "/" = "/api" := by
  refine ⟨rfl, ?_, ?_, ?_, ?_, by decide⟩ <;>
    simp [New, GET, Handle, applyOption, OptionContextPath, OptionAppEnv, List.mem_append]

/-- C8: constructing with appEnv "dev" or "test" registers the
GET /_system/routes endpoint and removes the panic handler; any other
appEnv value leaves the routes endpoint unregistered — a request to it
falls through to the 404 not-found handler — and the panic handler
installed. -/
theorem appenv_gates (e : String) :
    ((e = "dev" ∨ e = "test") →
        ("GET", "/_system/routes") ∈ (New [OptionAppEnv e]).router
          ∧ (New [OptionAppEnv e]).panicHandlerSet = false)
  ∧ (¬(e = "dev" ∨ e = "test") →
        servedStatus (New [OptionAppEnv e]) "GET" "/_system/routes" 200 = 404
          ∧ (New [OptionAppEnv e]).panicHandlerSet = true) := by
  constructor
  · intro h
    rcases h with h | h <;> subst h <;> exact ⟨by decide, by decide⟩
  · intro h
    have hne : New [OptionAppEnv e] = New [] := by
      simp [New, applyOption, OptionAppEnv, h]
    rw [hne]
    exact ⟨by decide, by decide⟩

/-- Witness for C8 at concrete inputs: appEnv "dev" and appEnv "prod". -/
theorem appenv_gates_witness :
    (("dev" = "dev" ∨ "dev" = "test")
      ∧ ("GET", "/_system/routes") ∈ (New [OptionAppEnv "dev"]).router
      ∧ (New [OptionAppEnv "dev"]).panicHandlerSet = false)
  ∧ (¬("prod" = "dev" ∨ "prod" = "test")
      ∧ servedStatus (New [OptionAppEnv "prod"]) "GET" "/_system/routes" 200 = 404
      ∧ (New [OptionAppEnv "prod"]).panicHandlerSet = true) :=
  ⟨⟨Or.inl rfl, (appenv_gates "dev").1 (Or.inl rfl)⟩,
   ⟨by decide, (appenv_gates "prod").2 (by decide)⟩⟩

/-- C9: the info handler runs the registered checks sequentially — it
spawns no goroutine — folding over them in registration order, so the
metrics mapping holds, for each name, the value of the last-registered
check with that name (later duplicates overwrite earlier ones). -/
theorem info_sequential_overwrite (l : List InfoMetric) :
    ∃ out, InfoHandlerRun (some l) = some out
      ∧ out.spawned = 0
      ∧ ∀ n, mapLookup out.Metrics n
          = (match (l.filter fun x => x.Name = n).getLast? with
             | some x => some (x.GetValue ())
             | none => none) := by
  refine ⟨_, rfl, rfl, fun n => ?_⟩
  show mapLookup (l.foldl (fun mp x => mapInsert mp x.Name (x.GetValue ())) []) n = _
  rw [mapLookup_foldl_insert (fun x => x.Name) (fun x => x.GetValue ()) l [] n]
  cases (l.filter fun x => x.Name = n).getLast? <;> rfl

/-- C10: the handler built by InfoHandler dereferences its metrics
pointer unguarded, so invoking it on a nil pointer panics (`none`), while
any non-nil pointer yields a response; HealthHandler guards the nil
pointer explicitly and still answers "ok"/200 with the metrics map left
nil. -/
theorem info_nil_pointer_contrast :
    InfoHandlerRun none = none
      ∧ (∀ l, ∃ out, InfoHandlerRun (some l) = some out)
      ∧ HealthHandlerRun none
          = { status := "ok", Metrics := none, code := 200, spawned := 0 } :=
  ⟨rfl, fun _ => ⟨_, rfl⟩, rfl⟩

end Srv

